import Mathlib

/-!
Verification development for the raster grid-transform pipeline of the
geotools repository (reprojection `ProjTransformer.py`, resampling
`重采样.py`, clipping `批量裁剪.py`).

Machine floating-point numbers are modelled by exact rationals `ℚ`; Python
exceptions are modelled by `Except`; per-file batch loops are modelled as
folds over lists of file names with the engine behaviour passed in as a
function.
-/

namespace GeoTools

/-- The six GDAL geotransform coefficients, in GDAL order:
`gt0` origin x, `gt1` pixel width, `gt2` row rotation, `gt3` origin y,
`gt4` column rotation, `gt5` pixel height (negative for north-up rasters).
The rasterio `Affine` used by `批量裁剪.py` carries the same six numbers
(in the order `(gt1, gt2, gt0, gt4, gt5, gt3)`); we use one record for both. -/
structure GeoTransform where
  gt0 : ℚ
  gt1 : ℚ
  gt2 : ℚ
  gt3 : ℚ
  gt4 : ℚ
  gt5 : ℚ
deriving DecidableEq, Repr

/-- A world-coordinate rectangle `(xmin, ymin, xmax, ymax)`. -/
structure Bounds where
  xmin : ℚ
  ymin : ℚ
  xmax : ℚ
  ymax : ℚ
deriving DecidableEq, Repr

/-- World bounds of a `w × h` raster on grid `g` (axis aligned, `gt1 > 0`,
`gt5 < 0`): the tuple `(gt0, gt3 + gt5*h, gt0 + gt1*w, gt3)` — exactly the
`outputBounds` tuple built at `重采样.py` lines 83-88, and the spec's
"origin plus (width × pixel-width, height × pixel-height)". -/
def computeBounds (g : GeoTransform) (w h : ℤ) : Bounds :=
  ⟨g.gt0, g.gt3 + g.gt5 * h, g.gt0 + g.gt1 * w, g.gt3⟩

/-- Modelled from the spec: the repository has no named `AffineGrid.pixelToWorld`
function; this is the forward affine map of spec §4.1 over the six
coefficients, `(x, y) = (gt0 + gt1*col + gt2*row, gt3 + gt4*col + gt5*row)`. -/
def pixelToWorld (g : GeoTransform) (col row : ℚ) : ℚ × ℚ :=
  (g.gt0 + g.gt1 * col + g.gt2 * row, g.gt3 + g.gt4 * col + g.gt5 * row)

/-- Modelled from the spec: the repository has no named `AffineGrid.worldToPixel`
function; this is the inverse map of spec §4.1 for the axis-aligned case
(rotation terms zero), `(col, row) = ((x - gt0)/gt1, (y - gt3)/gt5)`. -/
def worldToPixel (g : GeoTransform) (x y : ℚ) : ℚ × ℚ :=
  ((x - g.gt0) / g.gt1, (y - g.gt3) / g.gt5)

/-- Python `int(q)` / C `static_cast<int>(q)`: truncation toward zero. -/
def pyInt (q : ℚ) : ℤ :=
  if 0 ≤ q then ⌊q⌋ else ⌈q⌉

/-- Rounding to the nearest integer, halves up (`⌊q + 1/2⌋`). -/
def roundNearest (q : ℚ) : ℤ :=
  ⌊q + 1 / 2⌋

/-- What `重采样.py` and `ProjTransformer.py` read from a GDAL dataset:
pixel dimensions, projection text, geotransform, declared nodata. -/
structure GdalDataset where
  rasterXSize : ℕ
  rasterYSize : ℕ
  projection : String
  geoTransform : GeoTransform
  nodata : Option ℚ

/-- Errors raisable inside `resample_tif` before the warp call. The script
defines no error class of its own (in particular no `InvalidResolutionError`
exists anywhere in the repository); `zeroDivision` is Python's
`ZeroDivisionError` from the `/ target_res` size computation. -/
inductive ResampleError where
  | zeroDivision : ResampleError
  | openFail : ResampleError
deriving DecidableEq, Repr

/-- The resampling-relevant fields of the `gdal.WarpOptions` built by
`resample_tif` (`重采样.py` lines 76-94). -/
structure ResampleWarpOptions where
  xRes : ℚ
  yRes : ℚ
  outputBounds : Bounds
  dstSRS : String
deriving DecidableEq, Repr

/-- The dead-code size computation of `重采样.py` lines 71-72:
`x_size = int((RasterXSize * abs(gt1)) / target_res)` and likewise for y.
The two values are never used afterwards, but the division raises
`ZeroDivisionError` when `target_res = 0`. -/
def resampleSizes (src : GdalDataset) (targetRes : ℚ) :
    Except ResampleError (ℤ × ℤ) :=
  if targetRes = 0 then Except.error ResampleError.zeroDivision
  else Except.ok
    (pyInt ((src.rasterXSize * |src.geoTransform.gt1|) / targetRes),
     pyInt ((src.rasterYSize * |src.geoTransform.gt5|) / targetRes))

/-- The body of `resample_tif` (`重采样.py` lines 59-94) up to the
`gdal.Warp` invocation: compute the (unused) sizes, then build the warp
options with `xRes = yRes = target_res`, `outputBounds` taken from the
source geotransform, and `dstSRS` the source projection. An `ok` result
means the warp is invoked with these options; an `error` means a Python
exception was raised first (caught and swallowed by the function's own
`except` clause, so no output file is written). -/
def resampleTif (src : GdalDataset) (targetRes : ℚ) :
    Except ResampleError ResampleWarpOptions :=
  match resampleSizes src targetRes with
  | Except.error e => Except.error e
  | Except.ok _ =>
      Except.ok
        { xRes := targetRes
          yRes := targetRes
          outputBounds :=
            ⟨src.geoTransform.gt0,
             src.geoTransform.gt3 + src.geoTransform.gt5 * src.rasterYSize,
             src.geoTransform.gt0 + src.geoTransform.gt1 * src.rasterXSize,
             src.geoTransform.gt3⟩
          dstSRS := src.projection }

/-- The module-level resolution parsing of `重采样.py` lines 26-30:
`float(input(...))` guarded only against `ValueError` (non-numeric text).
`none` models non-numeric input (the script exits); any numeric value,
of any sign, is accepted with no further validation. -/
def moduleTargetRes (raw : Option ℚ) : Except String ℚ :=
  match raw with
  | none => Except.error "invalid number"
  | some q => Except.ok q

/-- An output raster grid: dimensions (as C `int`, possibly negative in
pathological cases) and geotransform. -/
structure GdalGrid where
  width : ℤ
  height : ℤ
  transform : GeoTransform
deriving DecidableEq, Repr

/-- Model of GDAL's documented output-grid derivation in `gdalwarp` when both
an explicit extent (`outputBounds`, i.e. `-te`) and explicit resolutions
(`xRes`/`yRes`, i.e. `-tr`) are supplied, as `resample_tif` does: the origin
is pinned at `(xmin, ymax)`, pixel size is `(xRes, -yRes)`, and
`nPixels = int((xmax - xmin + xRes/2) / xRes)` (likewise lines). The GDAL
warp library itself is an external collaborator of the repository; only this
grid-derivation rule of it is modelled, nothing of its pixel numerics. -/
def warpOutputGrid (b : Bounds) (xRes yRes : ℚ) : GdalGrid :=
  { width := pyInt ((b.xmax - b.xmin + xRes / 2) / xRes)
    height := pyInt ((b.ymax - b.ymin + yRes / 2) / yRes)
    transform := ⟨b.xmin, xRes, 0, b.ymax, 0, -yRes⟩ }

/-- The realized output grid of one `resample_tif` run that reached the warp. -/
def resampleOutputGrid (opts : ResampleWarpOptions) : GdalGrid :=
  warpOutputGrid opts.outputBounds opts.xRes opts.yRes

/-- The `gdal.WarpOptions` fields built by `reproject_raster`
(`ProjTransformer.py` lines 24-32). Note the function takes no nodata
argument: `dstNodata` is written as the literal `0` in the source. -/
structure ReprojWarpOptions where
  srcSRS : String
  dstSRS : String
  resampleAlg : ℕ
  format : String
  dstNodata : ℚ
  creationOptions : List String
deriving DecidableEq, Repr

/-- `reproject_raster` (`ProjTransformer.py` lines 15-38) up to the
`gdal.Warp` call: read the source projection from the dataset and build the
warp options. The source dataset's own `nodata` field is never consulted. -/
def reprojectRaster (src : GdalDataset) (targetSRS : String) : ReprojWarpOptions :=
  { srcSRS := src.projection
    dstSRS := targetSRS
    resampleAlg := 2
    format := "GTiff"
    dstNodata := 0
    creationOptions := ["COMPRESS=LZW"] }

/-- Engine failure during one file of a reprojection batch (any GDAL/IO
exception escaping `reproject_raster`). -/
inductive ReprojectError where
  | engineFailure : ReprojectError
deriving DecidableEq, Repr

/-- The loop of `batch_reproject` (`ProjTransformer.py` lines 53-56): it calls
`reproject_raster` on each file with no `try`/`except` around the call, so an
engine error propagates out of the loop. Returns the list of files completed
before the loop ended, and the escaped error if one was raised; files after
the failing one are never reached. -/
def batchReproject (engine : String → Except ReprojectError Unit) :
    List String → List String × Option ReprojectError
  | [] => ([], none)
  | f :: fs =>
      match engine f with
      | Except.ok _ =>
          let rest := batchReproject engine fs
          (f :: rest.1, rest.2)
      | Except.error e => ([], some e)

/-- The loop of `重采样.py` lines 104-108: `resample_tif` swallows its own
exceptions, so the loop body cannot throw and every file is visited. Records,
per file, whether the engine reached the warp (`true`) or raised (`false`). -/
def resampleBatch (engine : String → Except ResampleError ResampleWarpOptions)
    (files : List String) : List (String × Bool) :=
  files.map (fun f => (f, (engine f).toBool))

/-- The loop of `批量裁剪.py` `main` lines 141-159: `clip_raster_with_shapefile`
returns a Bool (it catches its own exceptions), and the loop increments the
`successful` or `failed` counter and always advances. Result: `(successful,
failed)`. -/
def clipBatch (engine : String → Bool) (files : List String) : ℕ × ℕ :=
  files.foldl
    (fun acc f => if engine f then (acc.1 + 1, acc.2) else (acc.1, acc.2 + 1))
    (0, 0)

/-- What `批量裁剪.py` reads from a rasterio dataset: dimensions, band count,
dtype, CRS, affine transform, declared nodata, and the band pixel values
(modelled as one representative band, column then row). -/
structure RasterioDataset where
  width : ℕ
  height : ℕ
  count : ℕ
  dtype : String
  crs : String
  transform : GeoTransform
  nodata : Option ℚ
  pixel : ℕ → ℕ → ℚ

/-- A pixel buffer produced by `rasterio.mask.mask`. -/
structure Band where
  width : ℕ
  height : ℕ
  pixel : ℕ → ℕ → ℚ

/-- A geometry set as observed by the clip engine: the union world envelope
of the shapes, and the two rasterizations used by `rasterio.mask` — the
`all_touched=True` inclusion rule (any overlap) and the default pixel-center
rule. The geometry internals (shapely) are an external collaborator. -/
structure GeometrySet where
  env : Bounds
  touchedAny : ℕ → ℕ → Bool
  touchedCenter : ℕ → ℕ → Bool

/-- Errors raisable inside `clip_raster_with_shapefile`. `noOverlap` is the
`ValueError("Input shapes do not overlap raster.")` raised by
`rasterio.mask` in crop mode; `typeErrorBadKwarg` is the
`TypeError: mask() got an unexpected keyword argument` raised by the
snap-branch call `mask(src, shapes, crop=False, transform=ref_transform,
all_touched=True, nodata=src.nodata)` (`批量裁剪.py` line 55) —
`rasterio.mask.mask` has no `transform` parameter, so this call raises on
every invocation; `writeShapeMismatch` is the `ValueError` raised by
`dataset.write` when the array shape disagrees with the destination
metadata. -/
inductive ClipError where
  | noOverlap : ClipError
  | typeErrorBadKwarg : ClipError
  | writeShapeMismatch : ClipError
deriving DecidableEq, Repr

/-- World envelope of a rasterio dataset (axis aligned, `gt1 > 0`, `gt5 < 0`). -/
def rasterEnvelope (src : RasterioDataset) : Bounds :=
  computeBounds src.transform src.width src.height

/-- A pixel window into a source raster. -/
structure Window where
  colOff : ℕ
  rowOff : ℕ
  width : ℕ
  height : ℕ
deriving DecidableEq, Repr

/-- First source column covered by the envelope, clamped at the left edge. -/
def windowColMin (src : RasterioDataset) (env : Bounds) : ℤ :=
  max ⌊(env.xmin - src.transform.gt0) / src.transform.gt1⌋ 0

/-- One past the last source column covered, clamped at the right edge. -/
def windowColMax (src : RasterioDataset) (env : Bounds) : ℤ :=
  min ⌈(env.xmax - src.transform.gt0) / src.transform.gt1⌉ (src.width : ℤ)

/-- First source row covered by the envelope (north-up: from `ymax`),
clamped at the top edge. -/
def windowRowMin (src : RasterioDataset) (env : Bounds) : ℤ :=
  max ⌊(env.ymax - src.transform.gt3) / src.transform.gt5⌋ 0

/-- One past the last source row covered, clamped at the bottom edge. -/
def windowRowMax (src : RasterioDataset) (env : Bounds) : ℤ :=
  min ⌈(env.ymin - src.transform.gt3) / src.transform.gt5⌉ (src.height : ℤ)

/-- Model of `rasterio.features.geometry_window` as used by
`rasterio.mask.mask(crop=True)`: the geometry envelope is converted to a
pixel range on the source grid (floor/ceil), intersected with the raster
extent, and an empty intersection raises the no-overlap error. -/
def cropWindow (src : RasterioDataset) (env : Bounds) :
    Except ClipError Window :=
  if windowColMax src env ≤ windowColMin src env ∨
      windowRowMax src env ≤ windowRowMin src env then
    Except.error ClipError.noOverlap
  else Except.ok
    { colOff := (windowColMin src env).toNat
      rowOff := (windowRowMin src env).toNat
      width := (windowColMax src env - windowColMin src env).toNat
      height := (windowRowMax src env - windowRowMin src env).toNat }

/-- `rasterio.mask.mask(src, shapes, crop=True, nodata=src.nodata)`: crop to
the geometry window (failing if the shapes do not overlap the raster), fill
pixels not covered by the geometry with the nodata value (`0` when the
source declares none), and return the buffer with the translated transform. -/
def maskCrop (src : RasterioDataset) (gs : GeometrySet) :
    Except ClipError (Band × GeoTransform) :=
  match cropWindow src gs.env with
  | Except.error e => Except.error e
  | Except.ok w =>
      Except.ok
        ({ width := w.width
           height := w.height
           pixel := fun c r =>
             if gs.touchedCenter (c + w.colOff) (r + w.rowOff) then
               src.pixel (c + w.colOff) (r + w.rowOff)
             else (src.nodata.getD 0) },
         { gt0 := src.transform.gt0 + src.transform.gt1 * w.colOff
           gt1 := src.transform.gt1
           gt2 := src.transform.gt2
           gt3 := src.transform.gt3 + src.transform.gt5 * w.rowOff
           gt4 := src.transform.gt4
           gt5 := src.transform.gt5 })

/-- The metadata dictionary written into the output raster (the
`src.meta.copy()` followed by `out_meta.update({...})` of `批量裁剪.py`). -/
structure OutMeta where
  driver : String
  width : ℕ
  height : ℕ
  count : ℕ
  dtype : String
  crs : String
  transform : GeoTransform
  nodata : Option ℚ
deriving Repr

/-- A raster written to disk: its metadata and pixel buffer. -/
structure WrittenRaster where
  meta : OutMeta
  image : Band

/-- `rasterio.open(output, "w", **meta)` followed by `dest.write(image)`:
the write raises when the buffer shape disagrees with the declared
dimensions, in which case nothing usable is produced. -/
def writeRaster (meta : OutMeta) (img : Band) : Except ClipError WrittenRaster :=
  if img.width = meta.width ∧ img.height = meta.height then
    Except.ok ⟨meta, img⟩
  else Except.error ClipError.writeShapeMismatch

/-- The metadata dictionary the snap branch would build (`批量裁剪.py`
lines 59-68): reference width, height, transform and CRS with the source's
band count, dtype and nodata. Dead code in the program: the mask call that
precedes it in the same `try` block raises the keyword `TypeError` on every
snap invocation, so execution never reaches this construction. -/
def snapOutMeta (src refds : RasterioDataset) : OutMeta :=
  { driver := "GTiff"
    width := refds.width
    height := refds.height
    count := src.count
    dtype := src.dtype
    crs := refds.crs
    transform := refds.transform
    nodata := src.nodata }

/-- The body of `clip_raster_with_shapefile` (`批量裁剪.py` lines 42-91),
inside its `try`: with a reference raster (snap mode) the first statement is
`mask(src, shapes, crop=False, transform=ref_transform, all_touched=True,
nodata=src.nodata)`, which raises `TypeError` unconditionally because
`rasterio.mask.mask` has no `transform` parameter — the snap branch
therefore errors before any mask computation or write, and the metadata
update (`snapOutMeta`) is unreachable. Without a reference (tight-crop
mode) the mask call uses only valid keywords: it crops to the geometry
window and the metadata takes the cropped dimensions and transform (the CRS
stays the source's), `nodata` is the source's, and the buffer is then
written. An `error` is caught by the function's `except` clause. -/
def clipEngine (src : RasterioDataset) (gs : GeometrySet)
    (ref : Option RasterioDataset) : Except ClipError WrittenRaster :=
  match ref with
  | some _ => Except.error ClipError.typeErrorBadKwarg
  | none =>
      match maskCrop src gs with
      | Except.error e => Except.error e
      | Except.ok (img, outT) =>
          writeRaster
            { driver := "GTiff"
              width := img.width
              height := img.height
              count := src.count
              dtype := src.dtype
              crs := src.crs
              transform := outT
              nodata := src.nodata }
            img

/-- `clip_raster_with_shapefile` as the batch loop sees it: `some` output and
`True` on success, `none` and `False` when any exception was caught and
logged (no output file exists in that case — the write is the last step). -/
def clipRasterWithShapefile (src : RasterioDataset) (gs : GeometrySet)
    (ref : Option RasterioDataset) : Option WrittenRaster :=
  (clipEngine src gs ref).toOption

/-- Python `s.endswith(suf)`: `suf` is a suffix of the character sequence of
`s` (case-sensitive, as Python string comparison is). -/
def pyEndsWith (s suf : String) : Bool :=
  suf.data.isSuffixOf s.data

/-- File enumeration of `ProjTransformer.py` line 50:
`[f for f in os.listdir(input_dir) if f.endswith(".tif")]`. -/
def batchReprojectInputFiles (files : List String) : List String :=
  files.filter (fun f => pyEndsWith f ".tif")

/-- File enumeration of `重采样.py` line 101 (same `endswith` filter). -/
def resampleTifFiles (files : List String) : List String :=
  files.filter (fun f => pyEndsWith f ".tif")

/-- ASCII lower-casing of one character, as `os.path.normcase` performs on
Windows file names. -/
def asciiLower (c : Char) : Char :=
  if 65 ≤ c.toNat ∧ c.toNat ≤ 90 then Char.ofNat (c.toNat + 32) else c

/-- Windows `os.path.normcase` of a file name (the character sequence,
lower-cased; path-separator normalization is irrelevant to bare names). -/
def normcase (s : String) : List Char :=
  s.data.map asciiLower

/-- Whether Windows `glob`/`fnmatch` matches a file name against the pattern
`*.tif`: both sides pass through `os.path.normcase`, which lower-cases on
Windows, so the match is case-insensitive — the name matches exactly when
its lower-cased form ends in `.tif`. -/
def globMatchTif (f : String) : Bool :=
  ".tif".data.isSuffixOf (normcase f)

/-- File enumeration of `批量裁剪.py` line 122: `glob.glob(dir + "/*.tif")`.
The script hard-codes Windows paths (`D:\...`), and on Windows `glob`
matches through `os.path.normcase`, i.e. case-insensitively: the pattern
`*.tif` also selects `.TIF` names. -/
def clipTifFiles (files : List String) : List String :=
  files.filter globMatchTif

/-- World-envelope disjointness: the two rectangles share no interior point. -/
def envDisjoint (a b : Bounds) : Prop :=
  a.xmax ≤ b.xmin ∨ b.xmax ≤ a.xmin ∨ a.ymax ≤ b.ymin ∨ b.ymax ≤ a.ymin

/-! Concrete fixtures used by witnesses and counterexamples. -/

/-- A 3 × 3 GDAL dataset: origin `(0, 0)`, 10-unit pixels, north-up;
world bounds `(0, -30, 30, 0)`. -/
def srcEx : GdalDataset :=
  { rasterXSize := 3
    rasterYSize := 3
    projection := "WGS84"
    geoTransform := ⟨0, 10, 0, 0, 0, -10⟩
    nodata := some 5 }

/-- The warp options `resample_tif` builds for `srcEx` at resolution 7. -/
def optsEx7 : ResampleWarpOptions :=
  { xRes := 7, yRes := 7, outputBounds := ⟨0, -30, 30, 0⟩, dstSRS := "WGS84" }

/-- A reprojection engine that fails on `a.tif` and succeeds elsewhere. -/
def failOnA : String → Except ReprojectError Unit :=
  fun f => if f = "a.tif" then Except.error ReprojectError.engineFailure
           else Except.ok ()

/-- A 2 × 2 rasterio dataset: origin `(0, 0)`, 10-unit pixels, north-up;
world bounds `(0, -20, 20, 0)`. -/
def srcRioEx : RasterioDataset :=
  { width := 2
    height := 2
    count := 1
    dtype := "float32"
    crs := "EPSG:4326"
    transform := ⟨0, 10, 0, 0, 0, -10⟩
    nodata := some 0
    pixel := fun _ _ => 1 }

/-- A geometry set whose envelope lies entirely to the right of `srcRioEx`
(its bounds end at x = 20, the envelope starts at x = 100). -/
def gsFarEx : GeometrySet :=
  { env := ⟨100, -20, 120, 0⟩
    touchedAny := fun _ _ => false
    touchedCenter := fun _ _ => false }

/-! Helper lemmas. -/

/-- Truncation agrees with floor on nonnegative arguments. -/
theorem pyInt_eq_floor (q : ℚ) (h : 0 ≤ q) : pyInt q = ⌊q⌋ := by
  simp [pyInt, h]

/-- Half a pixel, measured in pixels. -/
theorem half_div_self (res : ℚ) (h : res ≠ 0) : res / 2 / res = 1 / 2 := by
  rw [div_div, mul_comm, ← div_div, div_self h]

/-- GDAL pixel-count rule as a half-up rounding of `extent / res`. -/
theorem warp_pixels_eq_round (extent res : ℚ) (hext : 0 ≤ extent)
    (hres : 0 < res) :
    pyInt ((extent + res / 2) / res) = roundNearest (extent / res) := by
  have h1 : (extent + res / 2) / res = extent / res + 1 / 2 := by
    rw [add_div, half_div_self res hres.ne']
  have h2 : (0 : ℚ) ≤ extent / res + 1 / 2 := by
    have := div_nonneg hext hres.le
    linarith
  rw [h1, pyInt_eq_floor _ h2, roundNearest]

/-- GDAL pixel-count rule when the extent is an exact multiple of the
resolution: the count is that multiple. -/
theorem warp_pixels_exact (m : ℕ) (res : ℚ) (hres : 0 < res) :
    pyInt ((↑m * res + res / 2) / res) = m := by
  have h1 : (↑m * res + res / 2) / res = ↑m + 1 / 2 := by
    rw [add_div, mul_div_cancel_right₀ _ (ne_of_gt hres),
      half_div_self res (ne_of_gt hres)]
  have h2 : (0 : ℚ) ≤ ↑m + 1 / 2 := by positivity
  have h3 : ((m : ℚ) + 1 / 2) = ((m : ℤ) : ℚ) + 1 / 2 := by push_cast; ring
  have h4 : ⌊(1 : ℚ) / 2⌋ = 0 := by
    rw [Int.floor_eq_iff]
    norm_num
  rw [h1, pyInt_eq_floor _ h2, h3, Int.floor_int_add, h4, add_zero]

/-- The clip batch fold counts every file exactly once, for any starting
accumulator. -/
theorem clipBatch_go_sum (eng : String → Bool) (files : List String)
    (a b : ℕ) :
    ((files.foldl
        (fun acc f => if eng f then (acc.1 + 1, acc.2) else (acc.1, acc.2 + 1))
        (a, b)).1 +
      (files.foldl
        (fun acc f => if eng f then (acc.1 + 1, acc.2) else (acc.1, acc.2 + 1))
        (a, b)).2) = a + b + files.length := by
  induction files generalizing a b with
  | nil => simp
  | cons f fs ih =>
      by_cases h : eng f = true
      · simp only [List.foldl_cons, h, if_true]
        rw [ih]
        simp only [List.length_cons]
        omega
      · simp only [List.foldl_cons]
        rw [if_neg h, ih]
        simp only [List.length_cons]
        omega

/-- Every enumerated file ends up in exactly one of the two clip counters. -/
theorem clipBatch_sum (eng : String → Bool) (files : List String) :
    (clipBatch eng files).1 + (clipBatch eng files).2 = files.length := by
  simpa using clipBatch_go_sum eng files 0 0

/-! Claim theorems. -/

/-- C7: for every valid grid (positive pixel width, nonzero pixel height,
zero rotation terms) and every pixel coordinate, `worldToPixel` inverts
`pixelToWorld` — exactly over `ℚ`, hence within any floating-point
tolerance. -/
theorem worldToPixel_pixelToWorld_id (g : GeoTransform) (hpw : 0 < g.gt1)
    (hph : g.gt5 ≠ 0) (hr2 : g.gt2 = 0) (hr4 : g.gt4 = 0) (c r : ℚ) :
    worldToPixel g (pixelToWorld g c r).1 (pixelToWorld g c r).2 = (c, r) := by
  have h1 : g.gt1 ≠ 0 := ne_of_gt hpw
  simp only [worldToPixel, pixelToWorld, hr2, hr4, zero_mul, add_zero,
    Prod.mk.injEq]
  constructor
  · field_simp
  · field_simp

/-- C7 witness: the round trip at the concrete grid with origin `(0, 0)`,
pixel size 10, at pixel `(3, 4)`. -/
theorem worldToPixel_pixelToWorld_id_witness :
    worldToPixel ⟨0, 10, 0, 0, 0, -10⟩
      (pixelToWorld ⟨0, 10, 0, 0, 0, -10⟩ 3 4).1
      (pixelToWorld ⟨0, 10, 0, 0, 0, -10⟩ 3 4).2 = (3, 4) :=
  worldToPixel_pixelToWorld_id ⟨0, 10, 0, 0, 0, -10⟩ (by norm_num)
    (by norm_num) rfl rfl 3 4

/-- C8: the reprojection warp options always carry `dstNodata = 0`,
whatever the source dataset (its declared nodata included) and target SRS;
the engine has no output-nodata parameter. -/
theorem reproject_nodata_always_zero (src : GdalDataset) (targetSRS : String) :
    (reprojectRaster src targetSRS).dstNodata = 0 :=
  rfl

/-- C2 counterexample: in the reprojection batch an engine error on the
first file aborts the loop — the second file, on which the engine would
have succeeded, is never processed and nothing is recorded. The resample
loop on the same file list visits both files. -/
theorem batch_reproject_abort_cex :
    batchReproject failOnA ["a.tif", "b.tif"] =
      ([], some ReprojectError.engineFailure) ∧
    failOnA "b.tif" = Except.ok () ∧
    (resampleBatch (fun _ => Except.error ResampleError.zeroDivision)
        ["a.tif", "b.tif"]).length = 2 := by
  refine ⟨?_, ?_, ?_⟩ <;> rfl

/-- C2 amended: per-file error isolation holds for the clip batch (every
file is counted as succeeded or failed) and the resample batch (every file
is visited), but not for the reprojection batch: there an engine error on a
file ends the loop at once, with no files recorded and the rest skipped. -/
theorem batch_error_isolation_amended :
    (∀ (eng : String → Bool) (files : List String),
        (clipBatch eng files).1 + (clipBatch eng files).2 = files.length) ∧
    (∀ (eng : String → Except ResampleError ResampleWarpOptions)
        (files : List String),
        (resampleBatch eng files).map Prod.fst = files) ∧
    (∀ (eng : String → Except ReprojectError Unit) (f : String)
        (fs : List String) (e : ReprojectError), eng f = Except.error e →
        batchReproject eng (f :: fs) = ([], some e)) := by
  refine ⟨clipBatch_sum, ?_, ?_⟩
  · intro eng files
    simp [resampleBatch, Function.comp_def]
  · intro eng f fs e h
    simp [batchReproject, h]

/-- C2 amended witness: the reprojection abort behaviour at a concrete
engine and file list. -/
theorem batch_error_isolation_amended_witness :
    batchReproject failOnA ("a.tif" :: ["b.tif"]) =
      ([], some ReprojectError.engineFailure) :=
  batch_error_isolation_amended.2.2 failOnA "a.tif" ["b.tif"]
    ReprojectError.engineFailure (by simp [failOnA])

/-- C10 counterexample: the clip loop's Windows glob enumerates `x.TIF`
alongside `b.tif` — the upper-case name is matched case-insensitively and
so is processed and counted in the clip batch, contradicting the claim
that `.TIF` names are silently skipped by all three loops; the reprojection
loop's `endswith` filter, by contrast, drops it. -/
theorem clip_glob_case_insensitive_cex :
    clipTifFiles ["x.TIF", "b.tif"] = ["x.TIF", "b.tif"] ∧
    batchReprojectInputFiles ["x.TIF", "b.tif"] = ["b.tif"] := by
  constructor <;> rfl

/-- C10 amended: the reprojection and resample loops filter with the
case-sensitive `str.endswith(".tif")`, so `x.TIF` and `x.tiff` are skipped
and counted nowhere there; the clip loop enumerates through Windows glob,
which matches `*.tif` case-insensitively, so names whose lower-cased form
ends in `.tif` — `x.TIF` included, `x.tiff` still excluded — are enumerated
and counted there, and its two counters partition exactly the enumerated
list. -/
theorem tif_filter_amended (files : List String) (f : String) :
    (f ∈ batchReprojectInputFiles files ↔
      f ∈ files ∧ pyEndsWith f ".tif" = true) ∧
    (f ∈ resampleTifFiles files ↔ f ∈ files ∧ pyEndsWith f ".tif" = true) ∧
    (f ∈ clipTifFiles files ↔ f ∈ files ∧ globMatchTif f = true) ∧
    (pyEndsWith "x.TIF" ".tif" = false ∧ pyEndsWith "x.tiff" ".tif" = false ∧
      pyEndsWith "x.tif" ".tif" = true ∧ globMatchTif "x.TIF" = true ∧
      globMatchTif "x.tiff" = false ∧ globMatchTif "x.tif" = true) ∧
    (∀ eng, (clipBatch eng (clipTifFiles files)).1 +
        (clipBatch eng (clipTifFiles files)).2 = (clipTifFiles files).length) := by
  refine ⟨?_, ?_, ?_, ?_, ?_⟩
  · simp [batchReprojectInputFiles, List.mem_filter]
  · simp [resampleTifFiles, List.mem_filter]
  · simp [clipTifFiles, List.mem_filter]
  · refine ⟨by decide, by decide, by decide, by decide, by decide, by decide⟩
  · intro eng
    exact clipBatch_sum eng (clipTifFiles files)

/-- C4 counterexample: at targetResolution = -5 (which is ≤ 0) the
module-level parsing accepts the value with no validation and `resample_tif`
raises nothing: it reaches the warp invocation with `xRes = yRes = -5`.
No `InvalidResolutionError` exists in the code, so the claimed failure does
not occur. -/
theorem resample_no_validation_cex :
    moduleTargetRes (some (-5)) = Except.ok (-5) ∧
    resampleTif srcEx (-5) = Except.ok
      { xRes := -5, yRes := -5, outputBounds := ⟨0, -30, 30, 0⟩,
        dstSRS := "WGS84" } := by
  constructor
  · rfl
  · norm_num [resampleTif, resampleSizes, srcEx]

/-- C4 amended: the code never validates the target resolution. Any numeric
value — negative included — passes the module-level parse and, when nonzero,
flows through `resample_tif` to the warp invocation; only the exact value 0
fails, with Python's `ZeroDivisionError` from the size computation (caught
inside `resample_tif`, so no output is written and no warp is invoked). -/
theorem resample_resolution_handling (src : GdalDataset) (res : ℚ) :
    moduleTargetRes (some res) = Except.ok res ∧
    (res = 0 → resampleTif src res = Except.error ResampleError.zeroDivision) ∧
    (res ≠ 0 → resampleTif src res = Except.ok
      { xRes := res
        yRes := res
        outputBounds :=
          ⟨src.geoTransform.gt0,
           src.geoTransform.gt3 + src.geoTransform.gt5 * src.rasterYSize,
           src.geoTransform.gt0 + src.geoTransform.gt1 * src.rasterXSize,
           src.geoTransform.gt3⟩
        dstSRS := src.projection }) := by
  refine ⟨rfl, ?_, ?_⟩
  · intro h
    simp [resampleTif, resampleSizes, h]
  · intro h
    simp [resampleTif, resampleSizes, h]

/-- C4 amended witness: resolution 0 raises the division error; resolution
-5 reaches the warp. -/
theorem resample_resolution_handling_witness :
    resampleTif srcEx 0 = Except.error ResampleError.zeroDivision ∧
    resampleTif srcEx (-5) = Except.ok
      { xRes := -5
        yRes := -5
        outputBounds :=
          ⟨srcEx.geoTransform.gt0,
           srcEx.geoTransform.gt3 + srcEx.geoTransform.gt5 * srcEx.rasterYSize,
           srcEx.geoTransform.gt0 + srcEx.geoTransform.gt1 * srcEx.rasterXSize,
           srcEx.geoTransform.gt3⟩
        dstSRS := srcEx.projection } :=
  ⟨(resample_resolution_handling srcEx 0).2.1 rfl,
   (resample_resolution_handling srcEx (-5)).2.2 (by norm_num)⟩

/-- C5: for every source with a standard north-up grid and every positive
target resolution, the realized warp output dimensions are the source
extent in pixels rounded to the nearest integer:
`round(sourceWidth * |pixelWidth| / targetResolution)` and likewise for the
height (halves rounding up). -/
theorem resample_output_dims (src : GdalDataset) (res : ℚ)
    (hpw : 0 < src.geoTransform.gt1) (hph : src.geoTransform.gt5 < 0)
    (hres : 0 < res) (opts : ResampleWarpOptions)
    (hok : resampleTif src res = Except.ok opts) :
    (resampleOutputGrid opts).width =
      roundNearest (src.rasterXSize * |src.geoTransform.gt1| / res) ∧
    (resampleOutputGrid opts).height =
      roundNearest (src.rasterYSize * |src.geoTransform.gt5| / res) := by
  have hres0 : res ≠ 0 := ne_of_gt hres
  simp only [resampleTif, resampleSizes, if_neg hres0] at hok
  rw [Except.ok.injEq] at hok
  subst hok
  constructor
  · show pyInt ((src.geoTransform.gt0 + src.geoTransform.gt1 * ↑src.rasterXSize -
        src.geoTransform.gt0 + res / 2) / res) = _
    have he : src.geoTransform.gt0 + src.geoTransform.gt1 * ↑src.rasterXSize -
        src.geoTransform.gt0 + res / 2 =
        ↑src.rasterXSize * src.geoTransform.gt1 + res / 2 := by ring
    rw [he,
      warp_pixels_eq_round _ _ (mul_nonneg (Nat.cast_nonneg _) hpw.le) hres,
      abs_of_pos hpw]
  · show pyInt ((src.geoTransform.gt3 - (src.geoTransform.gt3 +
        src.geoTransform.gt5 * ↑src.rasterYSize) + res / 2) / res) = _
    have he : src.geoTransform.gt3 - (src.geoTransform.gt3 +
        src.geoTransform.gt5 * ↑src.rasterYSize) + res / 2 =
        ↑src.rasterYSize * (-src.geoTransform.gt5) + res / 2 := by ring
    rw [he,
      warp_pixels_eq_round _ _
        (mul_nonneg (Nat.cast_nonneg _) (by linarith)) hres,
      abs_of_neg hph]

/-- C5 witness: the 3 × 3, 10-unit source at resolution 7 — the warp output
is 4 × 4 pixels, the half-up rounding of 30/7. -/
theorem resample_output_dims_witness :
    (resampleOutputGrid optsEx7).width =
      roundNearest (srcEx.rasterXSize * |srcEx.geoTransform.gt1| / 7) ∧
    (resampleOutputGrid optsEx7).height =
      roundNearest (srcEx.rasterYSize * |srcEx.geoTransform.gt5| / 7) :=
  resample_output_dims srcEx 7 (by norm_num [srcEx]) (by norm_num [srcEx])
    (by norm_num) optsEx7 (by norm_num [resampleTif, resampleSizes, srcEx, optsEx7])

/-- C3 counterexample: for the 3 × 3, 10-unit source at targetResolution 7,
the warp is asked for bounds (0, -30, 30, 0) but the realized 4 × 4 output
grid covers (0, -28, 28, 0): the realized bounds are recomputed from the
rounded pixel count and differ from the source bounds. -/
theorem resample_bounds_drift_cex :
    resampleTif srcEx 7 = Except.ok optsEx7 ∧
    computeBounds (resampleOutputGrid optsEx7).transform
        (resampleOutputGrid optsEx7).width (resampleOutputGrid optsEx7).height ≠
      computeBounds srcEx.geoTransform srcEx.rasterXSize srcEx.rasterYSize := by
  have hg : resampleOutputGrid optsEx7 = ⟨4, 4, ⟨0, 7, 0, 0, 0, -7⟩⟩ := by
    simp only [resampleOutputGrid, warpOutputGrid, optsEx7]
    norm_num [pyInt, Int.floor_eq_iff]
  constructor
  · norm_num [resampleTif, resampleSizes, srcEx, optsEx7]
  · rw [hg]
    norm_num [computeBounds, srcEx]

/-- C3 amended: the warp request's `outputBounds` equal the source bounds
exactly (taken from the source geotransform, not from the truncated
`x_size`/`y_size`); the realized output grid always preserves the left and
top edges, and the full bounds equality holds exactly when both source
extents are integer multiples of the target resolution. -/
theorem resample_bounds_exact_request (src : GdalDataset) (res : ℚ)
    (hpw : 0 < src.geoTransform.gt1) (hph : src.geoTransform.gt5 < 0)
    (hres : 0 < res) (opts : ResampleWarpOptions)
    (hok : resampleTif src res = Except.ok opts) :
    opts.outputBounds =
      computeBounds src.geoTransform src.rasterXSize src.rasterYSize ∧
    (resampleOutputGrid opts).transform.gt0 = src.geoTransform.gt0 ∧
    (resampleOutputGrid opts).transform.gt3 = src.geoTransform.gt3 ∧
    (∀ m n : ℕ,
      (src.rasterXSize : ℚ) * src.geoTransform.gt1 = m * res →
      (src.rasterYSize : ℚ) * (-src.geoTransform.gt5) = n * res →
      computeBounds (resampleOutputGrid opts).transform
          (resampleOutputGrid opts).width (resampleOutputGrid opts).height =
        computeBounds src.geoTransform src.rasterXSize src.rasterYSize) := by
  have hres0 : res ≠ 0 := ne_of_gt hres
  simp only [resampleTif, resampleSizes, if_neg hres0] at hok
  rw [Except.ok.injEq] at hok
  subst hok
  refine ⟨?_, rfl, rfl, ?_⟩
  · simp only [computeBounds]
    push_cast
    rfl
  · intro m n hm hn
    have hw : (resampleOutputGrid
        { xRes := res
          yRes := res
          outputBounds :=
            ⟨src.geoTransform.gt0,
             src.geoTransform.gt3 + src.geoTransform.gt5 * src.rasterYSize,
             src.geoTransform.gt0 + src.geoTransform.gt1 * src.rasterXSize,
             src.geoTransform.gt3⟩
          dstSRS := src.projection }).width = m := by
      show pyInt ((src.geoTransform.gt0 + src.geoTransform.gt1 * ↑src.rasterXSize -
          src.geoTransform.gt0 + res / 2) / res) = _
      have he : src.geoTransform.gt0 + src.geoTransform.gt1 * ↑src.rasterXSize -
          src.geoTransform.gt0 + res / 2 = ↑m * res + res / 2 := by
        rw [← hm]; ring
      rw [he, warp_pixels_exact m res hres]
    have hh : (resampleOutputGrid
        { xRes := res
          yRes := res
          outputBounds :=
            ⟨src.geoTransform.gt0,
             src.geoTransform.gt3 + src.geoTransform.gt5 * src.rasterYSize,
             src.geoTransform.gt0 + src.geoTransform.gt1 * src.rasterXSize,
             src.geoTransform.gt3⟩
          dstSRS := src.projection }).height = n := by
      show pyInt ((src.geoTransform.gt3 - (src.geoTransform.gt3 +
          src.geoTransform.gt5 * ↑src.rasterYSize) + res / 2) / res) = _
      have he : src.geoTransform.gt3 - (src.geoTransform.gt3 +
          src.geoTransform.gt5 * ↑src.rasterYSize) + res / 2 =
          ↑n * res + res / 2 := by
        rw [← hn]; ring
      rw [he, warp_pixels_exact n res hres]
    rw [hw, hh]
    simp only [computeBounds, resampleOutputGrid, warpOutputGrid,
      Bounds.mk.injEq]
    refine ⟨trivial, ?_, ?_, trivial⟩
    · push_cast
      linear_combination hn
    · push_cast
      linear_combination -hm

/-- The warp options `resample_tif` builds for `srcEx` at resolution 10. -/
def optsEx10 : ResampleWarpOptions :=
  { xRes := 10, yRes := 10, outputBounds := ⟨0, -30, 30, 0⟩, dstSRS := "WGS84" }

/-- C3 amended witness: at resolution 10 the extents (30 = 3·10) divide
exactly, the request carries the source bounds, and the realized 3 × 3
output covers exactly the source bounds. -/
theorem resample_bounds_exact_request_witness :
    optsEx10.outputBounds =
      computeBounds srcEx.geoTransform srcEx.rasterXSize srcEx.rasterYSize ∧
    computeBounds (resampleOutputGrid optsEx10).transform
        (resampleOutputGrid optsEx10).width (resampleOutputGrid optsEx10).height =
      computeBounds srcEx.geoTransform srcEx.rasterXSize srcEx.rasterYSize := by
  have h := resample_bounds_exact_request srcEx 10 (by norm_num [srcEx])
    (by norm_num [srcEx]) (by norm_num) optsEx10
    (by norm_num [resampleTif, resampleSizes, srcEx, optsEx10])
  exact ⟨h.1, h.2.2.2 3 3 (by norm_num [srcEx]) (by norm_num [srcEx])⟩

/-- C1 (code bug): the invalid `transform=` keyword makes every snap-mode
clip raise the `TypeError` inside the engine, so `clip_raster_with_shapefile`
returns failure and writes no output on every invocation, for every source,
reference and geometry set — no snap output with the reference's dimensions
(or any other) ever exists. The metadata construction that would copy the
reference's width, height and transform is present in the source but
unreachable. -/
theorem clip_snap_always_raises (src refds : RasterioDataset)
    (gs : GeometrySet) :
    clipEngine src gs (some refds) = Except.error ClipError.typeErrorBadKwarg ∧
    clipRasterWithShapefile src gs (some refds) = none ∧
    (snapOutMeta src refds).width = refds.width ∧
    (snapOutMeta src refds).height = refds.height ∧
    (snapOutMeta src refds).transform = refds.transform :=
  ⟨rfl, rfl, rfl, rfl, rfl⟩

/-- C9 (code bug): since every snap-mode clip raises the keyword `TypeError`
before anything is written, the program never produces an output relabelled
with the reference CRS; the unreachable metadata construction is what would
have done that labelling (reference CRS, source nodata) with no pixel warp
anywhere in the function. -/
theorem clip_snap_no_output_ever (src refds : RasterioDataset)
    (gs : GeometrySet) :
    clipRasterWithShapefile src gs (some refds) = none ∧
    (snapOutMeta src refds).crs = refds.crs ∧
    (snapOutMeta src refds).nodata = src.nodata :=
  ⟨rfl, rfl, rfl⟩

/-- C6: a tight-crop clip against a geometry set whose envelope is disjoint
from the raster's bounds raises the no-overlap error before anything is
written (no output file, truncated or otherwise), the engine wrapper
reports plain failure for that file, and the clip batch loop counts every
file as succeeded or failed and runs to the end. -/
theorem clip_tight_no_overlap (src : RasterioDataset) (gs : GeometrySet)
    (hpw : 0 < src.transform.gt1) (hph : src.transform.gt5 < 0)
    (hdisj : envDisjoint gs.env (rasterEnvelope src)) :
    clipEngine src gs none = Except.error ClipError.noOverlap ∧
    clipRasterWithShapefile src gs none = none ∧
    ∀ (eng : String → Bool) (files : List String),
      (clipBatch eng files).1 + (clipBatch eng files).2 = files.length := by
  simp only [envDisjoint, rasterEnvelope, computeBounds] at hdisj
  have hcond : windowColMax src gs.env ≤ windowColMin src gs.env ∨
      windowRowMax src gs.env ≤ windowRowMin src gs.env := by
    rcases hdisj with hd | hd | hd | hd
    · left
      have hq : (gs.env.xmax - src.transform.gt0) / src.transform.gt1 ≤ 0 := by
        rw [div_le_iff₀ hpw]
        simp only [zero_mul]
        linarith
      calc windowColMax src gs.env
          ≤ ⌈(gs.env.xmax - src.transform.gt0) / src.transform.gt1⌉ :=
            min_le_left _ _
        _ ≤ 0 := Int.ceil_le.mpr (by exact_mod_cast hq)
        _ ≤ windowColMin src gs.env := le_max_right _ _
    · left
      have hq : ((src.width : ℚ)) ≤
          (gs.env.xmin - src.transform.gt0) / src.transform.gt1 := by
        rw [le_div_iff₀ hpw]
        have hc := mul_comm (src.width : ℚ) src.transform.gt1
        push_cast at hd
        linarith
      calc windowColMax src gs.env ≤ (src.width : ℤ) := min_le_right _ _
        _ ≤ ⌊(gs.env.xmin - src.transform.gt0) / src.transform.gt1⌋ :=
            Int.le_floor.mpr (by exact_mod_cast hq)
        _ ≤ windowColMin src gs.env := le_max_left _ _
    · right
      have hq : ((src.height : ℚ)) ≤
          (gs.env.ymax - src.transform.gt3) / src.transform.gt5 := by
        rw [le_div_iff_of_neg hph]
        have hc := mul_comm (src.height : ℚ) src.transform.gt5
        push_cast at hd
        linarith
      calc windowRowMax src gs.env ≤ (src.height : ℤ) := min_le_right _ _
        _ ≤ ⌊(gs.env.ymax - src.transform.gt3) / src.transform.gt5⌋ :=
            Int.le_floor.mpr (by exact_mod_cast hq)
        _ ≤ windowRowMin src gs.env := le_max_left _ _
    · right
      have hq : (gs.env.ymin - src.transform.gt3) / src.transform.gt5 ≤ 0 := by
        rw [div_le_iff_of_neg hph]
        simp only [zero_mul]
        linarith
      calc windowRowMax src gs.env
          ≤ ⌈(gs.env.ymin - src.transform.gt3) / src.transform.gt5⌉ :=
            min_le_left _ _
        _ ≤ 0 := Int.ceil_le.mpr (by exact_mod_cast hq)
        _ ≤ windowRowMin src gs.env := le_max_right _ _
  have hwin : cropWindow src gs.env = Except.error ClipError.noOverlap := by
    unfold cropWindow
    rw [if_pos hcond]
  have heng : clipEngine src gs none = Except.error ClipError.noOverlap := by
    simp [clipEngine, maskCrop, hwin]
  refine ⟨heng, ?_, clipBatch_sum⟩
  simp [clipRasterWithShapefile, heng, Except.toOption]

/-- C6 witness: the geometry envelope starting at x = 100 is disjoint from
`srcRioEx` (bounds up to x = 20); the tight-crop clip fails with the
no-overlap error, writes nothing, and a two-file batch still counts both
files. -/
theorem clip_tight_no_overlap_witness :
    clipEngine srcRioEx gsFarEx none = Except.error ClipError.noOverlap ∧
    clipRasterWithShapefile srcRioEx gsFarEx none = none ∧
    (clipBatch (fun _ => false) ["a.tif", "b.tif"]).1 +
      (clipBatch (fun _ => false) ["a.tif", "b.tif"]).2 = 2 := by
  have h := clip_tight_no_overlap srcRioEx gsFarEx (by norm_num [srcRioEx])
    (by norm_num [srcRioEx])
    (by norm_num [envDisjoint, rasterEnvelope, computeBounds, srcRioEx, gsFarEx])
  exact ⟨h.1, h.2.1, h.2.2 _ _⟩

end GeoTools
